import Mathlib

/-!
Verification development for the supply-chain risk analyzer.

The definitions below are a shallow embedding of `src/models/risk_scoring.py`
(class `RiskScorer`) and `src/data_collection/api_collectors.py` (classes
`WeatherCollector`, `NewsCollector`, `TradeDataCollector`).  Python floats are
modelled as exact rationals (`ℚ`), Python machine integers as `ℤ`, Python
dictionaries holding numeric indicator values as association lists
`List (String × Option ℚ)` (a stored `none` models a JSON `null` value, while
absence of the key models a missing indicator), and fallible Python evaluation
as `Except PyErr`.  A Python `dict.get(k, d)` is modelled by `dictGetNum`;
bracket access `d[k]` raises `KeyError` when the key is absent, and calling
`.lower()` on a stored `None` raises `AttributeError`, exactly as in CPython.
`datetime.now()` is passed in explicitly as the naive epoch-second timestamp
`now : ℤ`; subtracting an offset-aware datetime from it raises `TypeError`,
as CPython does.
-/

/-- The kinds of exception the embedded code can raise. -/
inductive PyErr
  | keyError
  | typeError
  | attributeError
  | indexError
  | valueError
  | netError
  | jsonError
deriving DecidableEq

/-- ASCII lower-casing of one character, the fragment of CPython's
`str.lower` exercised by the keyword tables (which are ASCII). -/
def charLower (c : Char) : Char :=
  if 'A' ≤ c && c ≤ 'Z' then Char.ofNat (c.toNat + 32) else c

/-- `s.lower()` for ASCII strings, as a character list. -/
def strLower (s : String) : List Char := s.toList.map charLower

/-- `needle in hay` for character lists: contiguous-substring occurrence,
CPython's `in` operator on `str`. -/
def subOccursL (needle hay : List Char) : Bool :=
  match hay with
  | [] => needle.isEmpty
  | _ :: t => List.isPrefixOf needle hay || subOccursL needle t

/-- `needle in hay` where the needle is a literal keyword. -/
def subOccurs (needle : String) (hay : List Char) : Bool :=
  subOccursL needle.toList hay

/-- A parsed `datetime.datetime` value: `aware` is true when the value
carries a UTC offset, `sec` is its epoch second. -/
structure PyDateTime where
  aware : Bool
  sec : ℤ
deriving DecidableEq

/-- Abstract model of the ISO-8601 date string stored in a disaster event.
`valid` says `datetime.fromisoformat` accepts the string after the
`replace('Z', '+00:00')` rewrite; `hasTZ` says the parsed datetime carries a
UTC offset (true in particular for a `'Z'`-suffixed string); `sec` is the
denoted epoch second. -/
structure IsoDate where
  valid : Bool
  hasTZ : Bool
  sec : ℤ
deriving DecidableEq

/-- `datetime.fromisoformat(s.replace('Z', '+00:00'))`. -/
def fromisoformat (d : IsoDate) : Except PyErr PyDateTime :=
  if d.valid then .ok ⟨d.hasTZ, d.sec⟩ else .error .valueError

/-- `(datetime.now() - dt).days`.  `datetime.now()` is naive, so CPython
raises `TypeError` when `dt` is offset-aware; otherwise `timedelta.days` is
the floor of the difference in days. -/
def timedeltaDays (now : ℤ) (dt : PyDateTime) : Except PyErr ℤ :=
  if dt.aware then .error .typeError else .ok ((now - dt.sec).fdiv 86400)

/-- `d.get(k, dflt)` on a numeric-valued dict, followed by arithmetic use of
the result: a stored `null` raises `TypeError` at its first arithmetic use. -/
def dictGetNum (d : List (String × Option ℚ)) (k : String) (dflt : ℚ) :
    Except PyErr ℚ :=
  match d.lookup k with
  | none => .ok dflt
  | some none => .error .typeError
  | some (some v) => .ok v

/-- One entry of a forecast day's `weather` array (an OpenWeatherMap shape).
Each field is `none` when the key is absent and `some none` when the key is
present with value `None`. -/
structure WeatherEntryDict where
  main : Option (Option String)
  description : Option (Option String)
deriving DecidableEq

/-- One day of the forecast list: `weather` is the day's `weather` array,
`none` when the key is absent. -/
structure ForecastDay where
  weather : Option (List WeatherEntryDict)
deriving DecidableEq

/-- The weather snapshot consumed by the scorer.  Alert entries are opaque:
only their number matters to the code.  Each field is `none` when the key is
absent; `condition` is `some none` when the key holds `None`. -/
structure WeatherData where
  alerts : Option (List Unit)
  condition : Option (Option String)
  forecast : Option (List ForecastDay)
deriving DecidableEq

/-- The empty weather dict `{}` (the scorer's default). -/
def emptyWeatherData : WeatherData := ⟨none, none, none⟩

/-- A disaster/event record: `title` is `none` when the key is absent and
`some none` when it holds `None`; `date` is `none` when the key is absent. -/
structure DisasterEvent where
  title : Option (Option String)
  date : Option IsoDate
deriving DecidableEq

/-- A news item as read by the scorer: `title`/`description` are `none` when
the key is absent and `some none` when the key holds `None`. -/
structure NewsItem where
  title : Option (Option String)
  description : Option (Option String)
deriving DecidableEq

/-- The per-supplier data bundle handed to `calculate_overall_risk`.  Every
field is optional: `none` models the key being absent from the dict. -/
structure DataBundle where
  weather : Option WeatherData
  disasters : Option (List DisasterEvent)
  news : Option (List NewsItem)
  trade : Option (List (String × Option ℚ))
  supply : Option (List (String × Option ℚ))
  demand : Option (List (String × Option ℚ))
deriving DecidableEq

/-- The bundle `{}` with every field absent. -/
def emptyBundle : DataBundle := ⟨none, none, none, none, none, none⟩

/-- The dict returned by `calculate_overall_risk`: the six category scores
and the composite `overall`. -/
structure RiskScores where
  weather : ℚ
  political : ℚ
  economic : ℚ
  supply : ℚ
  demand : ℚ
  news_sentiment : ℚ
  overall : ℚ
deriving DecidableEq

namespace RiskScorer

/-- `self.disaster_severity_weights`, in insertion order. -/
def disaster_severity_weights : List (String × ℚ) :=
  [("earthquake", 1), ("tsunami", 1), ("hurricane", 9/10), ("flood", 8/10),
   ("storm", 7/10), ("drought", 6/10), ("wildfire", 8/10)]

/-- The `risk_factors` condition table of `calculate_weather_risk`. -/
def risk_factors : List (String × ℚ) :=
  [("extreme_weather", 1), ("storm_warning", 7/10), ("flood_risk", 8/10),
   ("normal", 1/10)]

/-- `base_risk`: 0.8 when `weather_data.get('alerts', [])` is truthy,
else 0.1. -/
def base_risk (w : WeatherData) : ℚ :=
  if (w.alerts.getD []).isEmpty then 1/10 else 8/10

/-- `risk_factors.get(weather_data.get('condition', 'normal'), 0.1)`.
A condition key holding `None` misses the lookup and yields the 0.1
default, as in CPython. -/
def condition_risk (w : WeatherData) : ℚ :=
  match w.condition with
  | none => (risk_factors.lookup "normal").getD (1/10)
  | some none => 1/10
  | some (some s) => (risk_factors.lookup s).getD (1/10)

/-- `day.get('weather', [{}])[0].get('main', '').lower()`: indexing an
empty stored array raises `IndexError`; a stored `None` under `main` raises
`AttributeError` at `.lower()`. -/
def dayMain (day : ForecastDay) : Except PyErr (List Char) :=
  match day.weather with
  | none => .ok []
  | some [] => .error .indexError
  | some (e :: _) =>
    match e.main with
    | none => .ok []
    | some none => .error .attributeError
    | some (some s) => .ok (strLower s)

/-- The forecast loop of `calculate_weather_risk`, accumulating
`forecast_risk`. -/
def forecastAux (days : List ForecastDay) (acc : ℚ) : Except PyErr ℚ :=
  match days with
  | [] => .ok acc
  | day :: rest => do
    let m ← dayMain day
    let acc' :=
      if m = "thunderstorm".toList ∨ m = "tornado".toList ∨
          m = "hurricane".toList then max acc (9/10)
      else if m = "rain".toList ∨ m = "snow".toList ∨ m = "storm".toList then
        max acc (6/10)
      else acc
    forecastAux rest acc'

/-- The `forecast_risk` local of `calculate_weather_risk`. -/
def forecast_risk (w : WeatherData) : Except PyErr ℚ :=
  forecastAux (w.forecast.getD []) 0

/-- `RiskScorer.calculate_weather_risk`. -/
def calculate_weather_risk (w : WeatherData) : Except PyErr ℚ := do
  let f ← forecast_risk w
  .ok (max (max (base_risk w) (condition_risk w)) f)

/-- `d['title'].lower()` for a disaster or news record: a missing key raises
`KeyError`, a stored `None` raises `AttributeError`. -/
def titleLower (t : Option (Option String)) : Except PyErr (List Char) :=
  match t with
  | none => .error .keyError
  | some none => .error .attributeError
  | some (some s) => .ok (strLower s)

/-- `d.get('description', '').lower()`: a missing key defaults to `''`, a
stored `None` raises `AttributeError`. -/
def descLower (t : Option (Option String)) : Except PyErr (List Char) :=
  match t with
  | none => .ok []
  | some none => .error .attributeError
  | some (some s) => .ok (strLower s)

/-- `datetime.fromisoformat(d['date'].replace('Z', '+00:00'))`. -/
def disasterDate (d : DisasterEvent) : Except PyErr PyDateTime :=
  match d.date with
  | none => .error .keyError
  | some iso => fromisoformat iso

/-- The `recent_disasters` list comprehension: keep the events whose age in
whole days is at most 7. -/
def recentDisasters (now : ℤ) (ds : List DisasterEvent) :
    Except PyErr (List DisasterEvent) :=
  match ds with
  | [] => .ok []
  | d :: rest => do
    let dt ← disasterDate d
    let days ← timedeltaDays now dt
    let tail ← recentDisasters now rest
    .ok (if days ≤ 7 then d :: tail else tail)

/-- The inner keyword loop of `calculate_disaster_risk`: the weight of the
first severity keyword occurring in the lowered title (`break` after the
first match), if any. -/
def firstSeverityMatch (table : List (String × ℚ)) (title : List Char) :
    Option ℚ :=
  match table with
  | [] => none
  | (k, w) :: rest =>
    if subOccurs k title then some w else firstSeverityMatch rest title

/-- The outer loop of `calculate_disaster_risk`, accumulating `max_risk`. -/
def disasterAux (ds : List DisasterEvent) (acc : ℚ) : Except PyErr ℚ :=
  match ds with
  | [] => .ok acc
  | d :: rest => do
    let t ← titleLower d.title
    let acc' :=
      match firstSeverityMatch disaster_severity_weights t with
      | none => acc
      | some w => max acc w
    disasterAux rest acc'

/-- `RiskScorer.calculate_disaster_risk`, with the ambient `datetime.now()`
passed in as `now`. -/
def calculate_disaster_risk (ds : List DisasterEvent) (now : ℤ) :
    Except PyErr ℚ :=
  if ds.isEmpty then .ok 0
  else do
    let recent ← recentDisasters now ds
    disasterAux recent 0

/-- `RiskScorer.calculate_trade_risk`. -/
def calculate_trade_risk (trade_data : List (String × Option ℚ)) :
    Except PyErr ℚ :=
  if trade_data.isEmpty then .ok (1/2)
  else do
    let t ← dictGetNum trade_data "trade" 50
    let m ← dictGetNum trade_data "manufacturing" 50
    let l ← dictGetNum trade_data "logistics" (5/2)
    let trade_risk := 1 - t / 100
    let manufacturing_risk := 1 - m / 100
    let logistics_risk := 1 - l / 5
    let weighted_risk :=
      trade_risk * (3/10) + manufacturing_risk * (3/10) +
        logistics_risk * (4/10)
    .ok (min weighted_risk 1)

/-- The `risk_keywords` table of `calculate_news_sentiment_risk`, in
insertion order. -/
def risk_keywords : List (String × ℚ) :=
  [("disruption", 8/10), ("shortage", 7/10), ("delay", 6/10),
   ("crisis", 8/10), ("strike", 7/10), ("shutdown", 8/10),
   ("bankruptcy", 9/10), ("recall", 7/10), ("accident", 6/10),
   ("investigation", 1/2)]

/-- The inner keyword loop of `calculate_news_sentiment_risk`: a title match
takes the full weight, otherwise a description match takes 0.7 of it. -/
def kwFoldNews (table : List (String × ℚ)) (title desc : List Char)
    (acc : ℚ) : ℚ :=
  match table with
  | [] => acc
  | (k, w) :: rest =>
    kwFoldNews rest title desc
      (if subOccurs k title then max acc w
       else if subOccurs k desc then max acc (w * (7/10)) else acc)

/-- The outer loop of `calculate_news_sentiment_risk` over `recent_news`. -/
def newsAux (items : List NewsItem) (acc : ℚ) : Except PyErr ℚ :=
  match items with
  | [] => .ok acc
  | it :: rest => do
    let t ← titleLower it.title
    let d ← descLower it.description
    newsAux rest (kwFoldNews risk_keywords t d acc)

/-- `RiskScorer.calculate_news_sentiment_risk`: only `news_data[:10]` is
scanned. -/
def calculate_news_sentiment_risk (news_data : List NewsItem) :
    Except PyErr ℚ :=
  if news_data.isEmpty then .ok 0
  else newsAux (news_data.take 10) 0

/-- The `political_keywords` table of `calculate_political_risk`. -/
def political_keywords : List (String × ℚ) :=
  [("tariff", 7/10), ("sanction", 9/10), ("trade war", 8/10),
   ("regulation", 6/10), ("policy change", 1/2), ("restriction", 7/10),
   ("compliance", 6/10)]

/-- The inner keyword loop of `calculate_political_risk`: a match in title
or description takes the full weight. -/
def kwFoldPolitical (table : List (String × ℚ)) (title desc : List Char)
    (acc : ℚ) : ℚ :=
  match table with
  | [] => acc
  | (k, w) :: rest =>
    kwFoldPolitical rest title desc
      (if subOccurs k title || subOccurs k desc then max acc w else acc)

/-- The news loop of `calculate_political_risk` over all items. -/
def politicalAux (items : List NewsItem) (acc : ℚ) : Except PyErr ℚ :=
  match items with
  | [] => .ok acc
  | it :: rest => do
    let t ← titleLower it.title
    let d ← descLower it.description
    politicalAux rest (kwFoldPolitical political_keywords t d acc)

/-- `RiskScorer.calculate_political_risk`. -/
def calculate_political_risk (news_data : List NewsItem)
    (trade_data : List (String × Option ℚ)) : Except PyErr ℚ := do
  let tr ← calculate_trade_risk trade_data
  let base_risk := tr * (1/2)
  let news_risk ← politicalAux news_data 0
  .ok (max base_risk news_risk)

/-- `RiskScorer.calculate_economic_risk` delegates to the trade-risk
function. -/
def calculate_economic_risk (trade_data : List (String × Option ℚ)) :
    Except PyErr ℚ :=
  calculate_trade_risk trade_data

/-- `RiskScorer.calculate_supply_risk`. -/
def calculate_supply_risk (supply_data : List (String × Option ℚ)) :
    Except PyErr ℚ := do
  let inventory_level ← dictGetNum supply_data "inventory_level" 50
  let lead_time ← dictGetNum supply_data "lead_time" 30
  let supplier_reliability ← dictGetNum supply_data "supplier_reliability" (1/2)
  let inventory_risk := (100 - inventory_level) / 100
  let lead_time_risk := min (lead_time / 60) 1
  let reliability_risk := 1 - supplier_reliability
  .ok (inventory_risk * (4/10) + lead_time_risk * (3/10) +
    reliability_risk * (3/10))

/-- `RiskScorer.calculate_demand_risk`. -/
def calculate_demand_risk (demand_data : List (String × Option ℚ)) :
    Except PyErr ℚ := do
  let forecast_accuracy ← dictGetNum demand_data "forecast_accuracy" (7/10)
  let demand_volatility ← dictGetNum demand_data "demand_volatility" (3/10)
  let accuracy_risk := 1 - forecast_accuracy
  .ok (accuracy_risk * (6/10) + demand_volatility * (4/10))

/-- `RiskScorer.calculate_overall_risk`, the scoring entry point.  The
ambient `datetime.now()` consulted by the disaster recency filter is passed
in as `now`.  The unused local `trade_risk` of the source is evaluated for
its exception behaviour, as in Python. -/
def calculate_overall_risk (data : DataBundle) (now : ℤ) :
    Except PyErr RiskScores := do
  let weather_risk ← calculate_weather_risk (data.weather.getD emptyWeatherData)
  let disaster_risk ← calculate_disaster_risk (data.disasters.getD []) now
  let news_risk ← calculate_news_sentiment_risk (data.news.getD [])
  let _trade_risk ← calculate_trade_risk (data.trade.getD [])
  let environmental_risk := max weather_risk disaster_risk
  let political ← calculate_political_risk (data.news.getD []) (data.trade.getD [])
  let economic ← calculate_economic_risk (data.trade.getD [])
  let supply ← calculate_supply_risk (data.supply.getD [])
  let demand ← calculate_demand_risk (data.demand.getD [])
  let overall_risk :=
    environmental_risk * (2/10) + political * (15/100) + economic * (25/100) +
      supply * (25/100) + demand * (15/100)
  .ok ⟨environmental_risk, political, economic, supply, demand, news_risk,
    min (overall_risk * (12/10)) 1⟩

/-- `RiskScorer.get_risk_category`. -/
def get_risk_category (risk_score : ℚ) : String :=
  if risk_score < 3/10 then "Low"
  else if risk_score < 6/10 then "Medium"
  else "High"

/-- The fixed advisory strings of `get_risk_recommendations`. -/
def strWeatherUrgent : String :=
  "Urgent: Active weather alerts in the area. Consider immediate alternative transportation routes and backup suppliers."

def strWeatherAdverse : String :=
  "Consider alternative transportation routes and backup suppliers due to adverse weather conditions."

def strPolitical : String :=
  "High political risk detected. Diversify supplier base across different regions and monitor trade policies."

def strLogistics : String :=
  "Poor logistics performance index detected. Review and optimize supply chain network."

def strEconomic : String :=
  "Review and adjust pricing strategies and contract terms due to economic risks."

def strSupply : String :=
  "Increase safety stock levels and identify backup suppliers to mitigate supply risks."

def strDemand : String :=
  "Improve demand forecasting accuracy and implement buffer stock strategies."

def strNews : String :=
  "Critical news events detected. Review and update contingency plans."

/-- `data.get('weather', {}).get('alerts')` truthiness. -/
def weatherAlertsTruthy (data : DataBundle) : Bool :=
  match data.weather with
  | none => false
  | some w => !(w.alerts.getD []).isEmpty

/-- `RiskScorer.get_risk_recommendations`.  The logistics comparison
`data.get('trade', {}).get('logistics', 0) < 2.5` is evaluated only when the
economic threshold fires, and raises `TypeError` on a stored `null`. -/
def get_risk_recommendations (risk_scores : RiskScores) (data : DataBundle) :
    Except PyErr (List String) := do
  let recs : List String := []
  let recs :=
    if risk_scores.weather > 7/10 then
      recs ++ [if weatherAlertsTruthy data then strWeatherUrgent
               else strWeatherAdverse]
    else recs
  let recs :=
    if risk_scores.political > 6/10 then recs ++ [strPolitical] else recs
  let recs ←
    if risk_scores.economic > 6/10 then do
      let lv ← dictGetNum (data.trade.getD []) "logistics" 0
      pure (recs ++ (if lv < 5/2 then [strLogistics] else []) ++ [strEconomic])
    else pure recs
  let recs := if risk_scores.supply > 1/2 then recs ++ [strSupply] else recs
  let recs := if risk_scores.demand > 1/2 then recs ++ [strDemand] else recs
  let recs :=
    if risk_scores.news_sentiment > 7/10 then recs ++ [strNews] else recs
  .ok recs

end RiskScorer

/-! ## Source collectors (`src/data_collection/api_collectors.py`)

Each collector is modelled as a function of an explicit environment that
records what the network and the upstream parsers would yield: an
`Except Unit` value models a step that can raise (network failure, JSON/XML
parse failure), and an `ℕ` models the HTTP status code.  The body of the
Python `try:` block is embedded as a `…_checked` function returning
`Except PyErr`; the collector itself applies the `except Exception` boundary
to it and is therefore total. -/

/-- An HTTP exchange: the request itself may raise; on response we get the
status code and the (fallibly parsed) body. -/
def HttpResp (α : Type) : Type := Except Unit (ℕ × Except Unit α)

namespace WeatherCollector

/-- The `current` dict of the one-call payload. -/
structure CurrentDict where
  temp : Option (Option ℚ)
  weather : Option (List WeatherEntryDict)
deriving DecidableEq

/-- The parsed one-call JSON body. -/
structure OneCallJson where
  alerts : Option (List Unit)
  daily : Option (List ForecastDay)
  current : Option CurrentDict
deriving DecidableEq

/-- The environment of one `get_weather_data` call. -/
structure WeatherEnv where
  onecall : HttpResp OneCallJson

/-- The normalized weather payload.  In the default payload
`{'condition': 'normal'}` every key but `condition` is absent (`none`). -/
structure WeatherPayload where
  condition : String
  temperature : Option (Option ℚ)
  alerts : Option (List Unit)
  forecast : Option (List ForecastDay)
  description : Option (Option String)
deriving DecidableEq

/-- The documented default payload `{'condition': 'normal'}`. -/
def defaultWeatherPayload : WeatherPayload := ⟨"normal", none, none, none, none⟩

/-- The `any(...)` generator over `daily[:3]`: is some of the first three
days' `weather[0]['main']` an extreme type?  Shares the scorer's
`day.get('weather', [{}])[0].get('main', '')` access (and its exceptions). -/
def extremeDailyCheck (days : List ForecastDay) : Except PyErr Bool :=
  match days with
  | [] => .ok false
  | day :: rest => do
    let m ← RiskScorer.dayMain day
    if m = "thunderstorm".toList ∨ m = "tornado".toList ∨
        m = "hurricane".toList then .ok true
    else extremeDailyCheck rest

/-- `current.get('temp', 20) > 35 or current.get('temp', 20) < 0`: a stored
`null` raises `TypeError` at the comparison. -/
def tempCheck (c : CurrentDict) : Except PyErr Bool :=
  match c.temp with
  | none => .ok false
  | some none => .error .typeError
  | some (some v) => .ok (v > 35 || v < 0)

/-- `current.get('weather', [{}])[0].get('description')`. -/
def currentDescription (c : CurrentDict) : Except PyErr (Option String) :=
  match c.weather with
  | none => .ok none
  | some [] => .error .indexError
  | some (e :: _) =>
    match e.description with
    | none => .ok none
    | some v => .ok v

/-- The body of the `try:` block of `WeatherCollector.get_weather_data`. -/
def get_weather_data_checked (env : WeatherEnv) : Except PyErr WeatherPayload :=
  match env.onecall with
  | .error _ => .error .netError
  | .ok (status, body) =>
    if status = 200 then do
      let data ← match body with
        | .error _ => .error PyErr.jsonError
        | .ok j => .ok j
      let alerts := data.alerts.getD []
      let daily := data.daily.getD []
      let current := data.current.getD ⟨none, none⟩
      let risk_condition ←
        if !alerts.isEmpty then .ok "extreme_weather"
        else do
          let extreme ← extremeDailyCheck (daily.take 3)
          if extreme then .ok "extreme_weather"
          else do
            let hot ← tempCheck current
            .ok (if hot then "extreme_weather" else "normal")
      let desc ← currentDescription current
      .ok ⟨risk_condition, some current.temp.join, some alerts,
        some (daily.take 5), some desc⟩
    else .ok defaultWeatherPayload

/-- `WeatherCollector.get_weather_data`: the `except Exception` boundary
converts any raised error into the default payload. -/
def get_weather_data (env : WeatherEnv) : WeatherPayload :=
  match get_weather_data_checked env with
  | .ok p => p
  | .error _ => defaultWeatherPayload

end WeatherCollector

namespace NewsCollector

/-- One NewsAPI article dict: `none` models an absent key (bracket access
raises `KeyError`), `some v` a present key with value `v` (possibly the
JSON `null`, modelled by the inner `none`).  `source_name` stands for the
two-level access `article['source']['name']`. -/
structure Article where
  title : Option (Option String)
  description : Option (Option String)
  url : Option (Option String)
  publishedAt : Option (Option String)
  source_name : Option (Option String)
deriving DecidableEq

/-- One Global Trade Alert feed item, read with `.get`. -/
structure GtaItem where
  title : Option (Option String)
  description : Option (Option String)
  url : Option (Option String)
  published_date : Option (Option String)
deriving DecidableEq

/-- A normalized news record as appended to `news_items`; the inner stored
values may be `null` (`none`). -/
structure NewsRecord where
  source : String
  title : Option String
  description : Option String
  url : Option String
  published_at : Option String
  source_name : Option String
deriving DecidableEq

/-- The environment of one `get_supply_chain_news` call: the NewsAPI client
call (which may raise) yielding `articles.get('articles', [])`, and the GTA
HTTP exchange. -/
structure NewsEnv where
  newsapi : Except Unit (List Article)
  gta : HttpResp (List GtaItem)

/-- Building one NewsAPI record: every bracket access raises `KeyError`
when the key is absent. -/
def buildRecord (a : Article) : Except PyErr NewsRecord :=
  match a.title, a.description, a.url, a.publishedAt, a.source_name with
  | some t, some d, some u, some p, some s => .ok ⟨"NewsAPI", t, d, u, p, s⟩
  | _, _, _, _, _ => .error .keyError

/-- The NewsAPI append loop: on an exception the items accumulated so far
are kept and the `True` flag reports that the `try:` block was aborted. -/
def newsapiFold (arts : List Article) (acc : List NewsRecord) :
    List NewsRecord × Bool :=
  match arts with
  | [] => (acc, false)
  | a :: rest =>
    match buildRecord a with
    | .error _ => (acc, true)
    | .ok r => newsapiFold rest (acc ++ [r])

/-- `location.lower() in item.get('title', '').lower()`: a stored `null`
title raises `AttributeError`. -/
def gtaKeep (location : String) (it : GtaItem) : Except PyErr Bool :=
  match it.title with
  | none => .ok (subOccursL (strLower location) [])
  | some none => .error .attributeError
  | some (some t) => .ok (subOccursL (strLower location) (strLower t))

/-- The GTA append loop: an exception keeps the records accumulated so
far. -/
def gtaFold (location : String) (items : List GtaItem)
    (acc : List NewsRecord) : List NewsRecord :=
  match items with
  | [] => acc
  | it :: rest =>
    match gtaKeep location it with
    | .error _ => acc
    | .ok true =>
      gtaFold location rest
        (acc ++ [⟨"GTA", it.title.join, it.description.join, it.url.join,
          it.published_date.join, some "Global Trade Alert"⟩])
    | .ok false => gtaFold location rest acc

/-- `NewsCollector.get_supply_chain_news`: total; on any internal failure it
returns the records accumulated before the failure point. -/
def get_supply_chain_news (location : String) (env : NewsEnv) :
    List NewsRecord :=
  match env.newsapi with
  | .error _ => []
  | .ok arts =>
    match newsapiFold arts [] with
    | (acc, true) => acc
    | (acc, false) =>
      match env.gta with
      | .error _ => acc
      | .ok (status, body) =>
        if status = 200 then
          match body with
          | .error _ => acc
          | .ok items => gtaFold location items acc
        else acc

end NewsCollector

namespace TradeDataCollector

/-- One World Bank observation row, read as `result[1][0].get('value')`. -/
structure WbEntry where
  value : Option (Option ℚ)
deriving DecidableEq

/-- The parsed World Bank response body: `second` models `result[1]` when
`result` is truthy with `len(result) > 1`, and is `none` otherwise. -/
structure WbResp where
  second : Option (List WbEntry)
deriving DecidableEq

/-- The environment of one `get_trade_data` call: one HTTP exchange per
indicator, issued in the dict order trade, manufacturing, logistics. -/
structure TradeEnv where
  trade : HttpResp WbResp
  manufacturing : HttpResp WbResp
  logistics : HttpResp WbResp

/-- One iteration of the indicator loop: on success the indicator's value
(possibly `null`) is appended to `data`; a raising step aborts the loop. -/
def tradeStep (acc : List (String × Option ℚ)) (name : String)
    (resp : HttpResp WbResp) : Except Unit (List (String × Option ℚ)) :=
  match resp with
  | .error _ => .error ()
  | .ok (status, body) =>
    if status = 200 then
      match body with
      | .error _ => .error ()
      | .ok j =>
        match j.second with
        | some (e :: _) => .ok (acc ++ [(name, e.value.join)])
        | _ => .ok acc
    else .ok acc

/-- `TradeDataCollector.get_trade_data`: total; on a failure the indicators
collected before the failure point are returned. -/
def get_trade_data (env : TradeEnv) : List (String × Option ℚ) :=
  match tradeStep [] "trade" env.trade with
  | .error _ => []
  | .ok d1 =>
    match tradeStep d1 "manufacturing" env.manufacturing with
    | .error _ => d1
    | .ok d2 =>
      match tradeStep d2 "logistics" env.logistics with
      | .error _ => d2
      | .ok d3 => d3

end TradeDataCollector

/-- Inverting a successful `Except` bind. -/
theorem except_bind_ok {ε α β : Type _} (x : Except ε α) (f : α → Except ε β)
    (s : β) : (x >>= f) = Except.ok s ↔ ∃ a, x = .ok a ∧ f a = .ok s := by
  cases x <;> simp [Bind.bind, Except.bind]

/-- A numeric dict field whose `get` succeeds with a value satisfying `P`. -/
def NumAt (d : List (String × Option ℚ)) (k : String) (dflt : ℚ)
    (P : ℚ → Prop) : Prop :=
  ∃ v, dictGetNum d k dflt = .ok v ∧ P v

/-- The trade indicators are numeric and in their documented ranges
(percent-of-GDP in [0,100], logistics performance index in [0,5]). -/
def WFTradeDict (d : List (String × Option ℚ)) : Prop :=
  NumAt d "trade" 50 (fun v => 0 ≤ v ∧ v ≤ 100) ∧
  NumAt d "manufacturing" 50 (fun v => 0 ≤ v ∧ v ≤ 100) ∧
  NumAt d "logistics" (5/2) (fun v => 0 ≤ v ∧ v ≤ 5)

/-- The supply sub-record fields are numeric and in their documented ranges. -/
def WFSupplyDict (d : List (String × Option ℚ)) : Prop :=
  NumAt d "inventory_level" 50 (fun v => 0 ≤ v ∧ v ≤ 100) ∧
  NumAt d "lead_time" 30 (fun v => 0 ≤ v) ∧
  NumAt d "supplier_reliability" (1/2) (fun v => 0 ≤ v ∧ v ≤ 1)

/-- The demand sub-record fields are numeric and in their documented ranges. -/
def WFDemandDict (d : List (String × Option ℚ)) : Prop :=
  NumAt d "forecast_accuracy" (7/10) (fun v => 0 ≤ v ∧ v ≤ 1) ∧
  NumAt d "demand_volatility" (3/10) (fun v => 0 ≤ v ∧ v ≤ 1)

/-- A news item the engine can read: a string title, no `null` description. -/
def WFNewsItem (n : NewsItem) : Prop :=
  (∃ s, n.title = some (some s)) ∧ n.description ≠ some none

/-- A disaster event the engine can read: a string title and a parseable,
offset-naive date. -/
def WFDisasterEvent (d : DisasterEvent) : Prop :=
  (∃ s, d.title = some (some s)) ∧
  ∃ iso, d.date = some iso ∧ iso.valid = true ∧ iso.hasTZ = false

/-- A forecast day the engine can read: its `weather` array, when present,
is non-empty with a non-`null` leading `main`. -/
def WFForecastDay (day : ForecastDay) : Prop :=
  match day.weather with
  | none => True
  | some [] => False
  | some (e :: _) => e.main ≠ some none

/-- A weather snapshot the engine can read. -/
def WFWeatherData (w : WeatherData) : Prop :=
  ∀ day ∈ w.forecast.getD [], WFForecastDay day

/-- A bundle on which every sub-calculation completes, with numeric inputs
in their documented ranges. -/
def WFBundle (b : DataBundle) : Prop :=
  WFWeatherData (b.weather.getD emptyWeatherData) ∧
  (∀ d ∈ b.disasters.getD [], WFDisasterEvent d) ∧
  (∀ n ∈ b.news.getD [], WFNewsItem n) ∧
  WFTradeDict (b.trade.getD []) ∧
  WFSupplyDict (b.supply.getD []) ∧
  WFDemandDict (b.demand.getD [])

/-- A keyword table whose weights lie in [0,1]. -/
def TableBounded (t : List (String × ℚ)) : Prop :=
  ∀ p ∈ t, 0 ≤ p.2 ∧ p.2 ≤ 1

namespace RiskScorer

theorem risk_factors_bounded : TableBounded risk_factors := by
  intro p hp
  simp [risk_factors] at hp
  rcases hp with h | h | h | h <;> subst h <;> norm_num

theorem disaster_severity_weights_bounded :
    TableBounded disaster_severity_weights := by
  intro p hp
  simp [disaster_severity_weights] at hp
  rcases hp with h | h | h | h | h | h | h <;> subst h <;> norm_num

theorem risk_keywords_bounded : TableBounded risk_keywords := by
  intro p hp
  simp [risk_keywords] at hp
  rcases hp with h | h | h | h | h | h | h | h | h | h <;> subst h <;> norm_num

theorem political_keywords_bounded : TableBounded political_keywords := by
  intro p hp
  simp [political_keywords] at hp
  rcases hp with h | h | h | h | h | h | h <;> subst h <;> norm_num

theorem lookup_getD_bounds (t : List (String × ℚ)) (ht : TableBounded t)
    (s : String) (dflt : ℚ) (h0 : 0 ≤ dflt) (h1 : dflt ≤ 1) :
    0 ≤ (t.lookup s).getD dflt ∧ (t.lookup s).getD dflt ≤ 1 := by
  induction t with
  | nil => simpa [List.lookup] using ⟨h0, h1⟩
  | cons p rest ih =>
    have hp := ht p (by simp)
    have hrest : TableBounded rest := fun q hq => ht q (by simp [hq])
    rcases p with ⟨k, w⟩
    by_cases hk : (s == k) = true
    · simpa [List.lookup, hk] using hp
    · simpa [List.lookup, hk] using ih hrest

theorem base_risk_bounds (w : WeatherData) :
    0 ≤ base_risk w ∧ base_risk w ≤ 1 := by
  unfold base_risk
  split <;> norm_num

theorem condition_risk_bounds (w : WeatherData) :
    0 ≤ condition_risk w ∧ condition_risk w ≤ 1 := by
  unfold condition_risk
  rcases w.condition with _ | _ | s
  · exact lookup_getD_bounds _ risk_factors_bounded _ _ (by norm_num) (by norm_num)
  · norm_num
  · exact lookup_getD_bounds _ risk_factors_bounded _ _ (by norm_num) (by norm_num)

theorem forecastAux_ok_bounds (days : List ForecastDay) (acc : ℚ)
    (hwf : ∀ d ∈ days, WFForecastDay d) (h0 : 0 ≤ acc) (h1 : acc ≤ 1) :
    ∃ r, forecastAux days acc = .ok r ∧ 0 ≤ r ∧ r ≤ 1 := by
  induction days generalizing acc with
  | nil => exact ⟨acc, rfl, h0, h1⟩
  | cons day rest ih =>
    have hday := hwf day (by simp)
    have hrest : ∀ d ∈ rest, WFForecastDay d := fun d hd => hwf d (by simp [hd])
    have hmain : ∃ m, dayMain day = .ok m := by
      unfold WFForecastDay at hday
      rcases hw : day.weather with _ | ⟨_ | ⟨e, es⟩⟩
      · exact ⟨[], by simp [dayMain, hw]⟩
      · rw [hw] at hday; simp at hday
      · rw [hw] at hday
        simp at hday
        rcases he : e.main with _ | ⟨_ | s⟩
        · exact ⟨[], by simp [dayMain, hw, he]⟩
        · exact absurd he hday
        · exact ⟨strLower s, by simp [dayMain, hw, he]⟩
    obtain ⟨m, hm⟩ := hmain
    have hstep : ∀ a : ℚ, 0 ≤ a → a ≤ 1 →
        0 ≤ (if m = "thunderstorm".toList ∨ m = "tornado".toList ∨
              m = "hurricane".toList then max a (9/10)
            else if m = "rain".toList ∨ m = "snow".toList ∨
              m = "storm".toList then max a (6/10) else a) ∧
        (if m = "thunderstorm".toList ∨ m = "tornado".toList ∨
              m = "hurricane".toList then max a (9/10)
            else if m = "rain".toList ∨ m = "snow".toList ∨
              m = "storm".toList then max a (6/10) else a) ≤ 1 := by
      intro a ha0 ha1
      split
      · constructor
        · exact le_max_of_le_right (by norm_num)
        · exact max_le ha1 (by norm_num)
      · split
        · constructor
          · exact le_max_of_le_right (by norm_num)
          · exact max_le ha1 (by norm_num)
        · exact ⟨ha0, ha1⟩
    obtain ⟨hs0, hs1⟩ := hstep acc h0 h1
    obtain ⟨r, hr, hr0, hr1⟩ := ih _ hrest hs0 hs1
    refine ⟨r, ?_, hr0, hr1⟩
    unfold forecastAux
    simp only [except_bind_ok]
    exact ⟨m, hm, hr⟩

theorem calculate_weather_risk_ok_bounds (w : WeatherData)
    (hwf : WFWeatherData w) :
    ∃ r, calculate_weather_risk w = .ok r ∧ 0 ≤ r ∧ r ≤ 1 := by
  obtain ⟨f, hf, hf0, hf1⟩ :=
    forecastAux_ok_bounds (w.forecast.getD []) 0 hwf le_rfl (by norm_num)
  obtain ⟨hb0, hb1⟩ := base_risk_bounds w
  obtain ⟨hc0, hc1⟩ := condition_risk_bounds w
  refine ⟨max (max (base_risk w) (condition_risk w)) f, ?_, ?_, ?_⟩
  · unfold calculate_weather_risk forecast_risk
    simp only [except_bind_ok]
    exact ⟨f, hf, rfl⟩
  · exact le_max_of_le_right hf0
  · exact max_le (max_le hb1 hc1) hf1

end RiskScorer

namespace RiskScorer

theorem recentDisasters_ok (now : ℤ) (ds : List DisasterEvent)
    (hwf : ∀ d ∈ ds, WFDisasterEvent d) :
    ∃ l, recentDisasters now ds = .ok l ∧ ∀ d ∈ l, d ∈ ds := by
  induction ds with
  | nil => exact ⟨[], rfl, by simp⟩
  | cons d rest ih =>
    obtain ⟨l, hl, hsub⟩ := ih (fun x hx => hwf x (by simp [hx]))
    obtain ⟨⟨s, hs⟩, iso, hiso, hvalid, htz⟩ := hwf d (by simp)
    refine ⟨if (now - iso.sec).fdiv 86400 ≤ 7 then d :: l else l, ?_, ?_⟩
    · unfold recentDisasters
      simp only [except_bind_ok]
      exact ⟨⟨false, iso.sec⟩,
        by simp [disasterDate, hiso, fromisoformat, hvalid, htz],
        (now - iso.sec).fdiv 86400,
        by simp [timedeltaDays], l, hl, by simp⟩
    · intro x hx
      by_cases hc : (now - iso.sec).fdiv 86400 ≤ 7
      · rw [if_pos hc] at hx
        rcases List.mem_cons.mp hx with h | h
        · simp [h]
        · simp [hsub x h]
      · rw [if_neg hc] at hx
        simp [hsub x hx]

theorem firstSeverityMatch_bounds (table : List (String × ℚ))
    (ht : TableBounded table) (title : List Char) (w : ℚ)
    (hm : firstSeverityMatch table title = some w) : 0 ≤ w ∧ w ≤ 1 := by
  induction table with
  | nil => simp [firstSeverityMatch] at hm
  | cons p rest ih =>
    have hp := ht p (by simp)
    have hrest : TableBounded rest := fun q hq => ht q (by simp [hq])
    unfold firstSeverityMatch at hm
    by_cases hk : subOccurs p.1 title = true
    · rw [if_pos hk] at hm
      cases hm
      exact hp
    · rw [if_neg hk] at hm
      exact ih hrest hm

theorem disasterAux_ok_bounds (ds : List DisasterEvent) (acc : ℚ)
    (hwf : ∀ d ∈ ds, ∃ s, d.title = some (some s)) (h0 : 0 ≤ acc)
    (h1 : acc ≤ 1) : ∃ r, disasterAux ds acc = .ok r ∧ 0 ≤ r ∧ r ≤ 1 := by
  induction ds generalizing acc with
  | nil => exact ⟨acc, rfl, h0, h1⟩
  | cons d rest ih =>
    obtain ⟨s, hs⟩ := hwf d (by simp)
    set acc' :=
      match firstSeverityMatch disaster_severity_weights (strLower s) with
      | none => acc
      | some w => max acc w with hacc'
    have hb : 0 ≤ acc' ∧ acc' ≤ 1 := by
      rw [hacc']
      rcases hfs : firstSeverityMatch disaster_severity_weights (strLower s)
        with _ | w
      · exact ⟨h0, h1⟩
      · obtain ⟨hw0, hw1⟩ :=
          firstSeverityMatch_bounds _ disaster_severity_weights_bounded _ _ hfs
        exact ⟨le_max_of_le_right hw0, max_le h1 hw1⟩
    obtain ⟨r, hr, hr0, hr1⟩ :=
      ih _ (fun x hx => hwf x (by simp [hx])) hb.1 hb.2
    refine ⟨r, ?_, hr0, hr1⟩
    unfold disasterAux
    simp only [except_bind_ok]
    exact ⟨strLower s, by simp [titleLower, hs], by rw [← hacc']; exact hr⟩

theorem calculate_disaster_risk_ok_bounds (ds : List DisasterEvent) (now : ℤ)
    (hwf : ∀ d ∈ ds, WFDisasterEvent d) :
    ∃ r, calculate_disaster_risk ds now = .ok r ∧ 0 ≤ r ∧ r ≤ 1 := by
  unfold calculate_disaster_risk
  by_cases he : ds.isEmpty
  · exact ⟨0, by simp [he], le_rfl, by norm_num⟩
  · obtain ⟨l, hl, hsub⟩ := recentDisasters_ok now ds hwf
    obtain ⟨r, hr, hr0, hr1⟩ := disasterAux_ok_bounds l 0
      (fun d hd => (hwf d (hsub d hd)).1) le_rfl (by norm_num)
    refine ⟨r, ?_, hr0, hr1⟩
    rw [if_neg he]
    simp only [except_bind_ok]
    exact ⟨l, hl, hr⟩

theorem calculate_trade_risk_ok_bounds (d : List (String × Option ℚ))
    (hwf : WFTradeDict d) :
    ∃ r, calculate_trade_risk d = .ok r ∧ 0 ≤ r ∧ r ≤ 1 := by
  obtain ⟨⟨t, ht, ht0, ht1⟩, ⟨m, hm, hm0, hm1⟩, ⟨l, hl, hl0, hl1⟩⟩ := hwf
  unfold calculate_trade_risk
  by_cases he : d.isEmpty
  · exact ⟨1/2, by simp [he], by norm_num, by norm_num⟩
  · rw [if_neg he]
    refine ⟨min ((1 - t/100) * (3/10) + (1 - m/100) * (3/10) +
      (1 - l/5) * (4/10)) 1, ?_, ?_, min_le_right _ _⟩
    · simp only [except_bind_ok]
      exact ⟨t, ht, m, hm, l, hl, rfl⟩
    · have h1 : 0 ≤ (1 - t/100) * (3/10) := by nlinarith
      have h2 : 0 ≤ (1 - m/100) * (3/10) := by nlinarith
      have h3 : 0 ≤ (1 - l/5) * (4/10) := by nlinarith
      exact le_min (by linarith) (by norm_num)

theorem calculate_supply_risk_ok_bounds (d : List (String × Option ℚ))
    (hwf : WFSupplyDict d) :
    ∃ r, calculate_supply_risk d = .ok r ∧ 0 ≤ r ∧ r ≤ 1 := by
  obtain ⟨⟨i, hi, hi0, hi1⟩, ⟨l, hl, hl0⟩, ⟨s, hs, hs0, hs1⟩⟩ := hwf
  refine ⟨(100 - i)/100 * (4/10) + min (l/60) 1 * (3/10) +
    (1 - s) * (3/10), ?_, ?_, ?_⟩
  · unfold calculate_supply_risk
    simp only [except_bind_ok]
    exact ⟨i, hi, l, hl, s, hs, rfl⟩
  · have h1 : 0 ≤ (100 - i)/100 * (4/10) := by nlinarith
    have h2 : 0 ≤ min (l/60) 1 * (3/10) := by
      have : (0:ℚ) ≤ min (l/60) 1 := le_min (by positivity) (by norm_num)
      nlinarith
    have h3 : 0 ≤ (1 - s) * (3/10) := by nlinarith
    linarith
  · have h1 : (100 - i)/100 * (4/10) ≤ 4/10 := by nlinarith
    have h2 : min (l/60) 1 * (3/10) ≤ 3/10 := by
      have : min (l/60) 1 ≤ 1 := min_le_right _ _
      nlinarith
    have h3 : (1 - s) * (3/10) ≤ 3/10 := by nlinarith
    linarith

theorem calculate_demand_risk_ok_bounds (d : List (String × Option ℚ))
    (hwf : WFDemandDict d) :
    ∃ r, calculate_demand_risk d = .ok r ∧ 0 ≤ r ∧ r ≤ 1 := by
  obtain ⟨⟨a, ha, ha0, ha1⟩, ⟨v, hv, hv0, hv1⟩⟩ := hwf
  refine ⟨(1 - a) * (6/10) + v * (4/10), ?_, by nlinarith, by nlinarith⟩
  unfold calculate_demand_risk
  simp only [except_bind_ok]
  exact ⟨a, ha, v, hv, rfl⟩

end RiskScorer

namespace RiskScorer

theorem kwFoldNews_mono (table : List (String × ℚ)) (t d : List Char)
    (acc : ℚ) : acc ≤ kwFoldNews table t d acc := by
  induction table generalizing acc with
  | nil => exact le_rfl
  | cons p rest ih =>
    rcases p with ⟨k, w⟩
    refine le_trans ?_ (ih _)
    split
    · exact le_max_left _ _
    · split
      · exact le_max_left _ _
      · exact le_rfl

theorem kwFoldNews_bounds (table : List (String × ℚ)) (ht : TableBounded table)
    (t d : List Char) (acc : ℚ) (h0 : 0 ≤ acc) (h1 : acc ≤ 1) :
    0 ≤ kwFoldNews table t d acc ∧ kwFoldNews table t d acc ≤ 1 := by
  induction table generalizing acc with
  | nil => exact ⟨h0, h1⟩
  | cons p rest ih =>
    rcases p with ⟨k, w⟩
    have hp := ht (k, w) (by simp)
    have hrest : TableBounded rest := fun q hq => ht q (by simp [hq])
    refine ih hrest _ ?_ ?_
    · split
      · exact le_max_of_le_left h0
      · split
        · exact le_max_of_le_left h0
        · exact h0
    · split
      · exact max_le h1 hp.2
      · split
        · exact max_le h1 (by nlinarith [hp.1, hp.2])
        · exact h1

theorem kwFoldNews_ge_of_title (table : List (String × ℚ)) (t d : List Char)
    (acc : ℚ) (k : String) (w : ℚ) (hmem : (k, w) ∈ table)
    (hocc : subOccurs k t = true) : w ≤ kwFoldNews table t d acc := by
  induction table generalizing acc with
  | nil => simp at hmem
  | cons p rest ih =>
    rcases List.mem_cons.mp hmem with h | h
    · subst h
      unfold kwFoldNews
      rw [if_pos hocc]
      exact le_trans (le_max_right _ _) (kwFoldNews_mono rest t d _)
    · exact ih _ h

theorem newsAux_ok_mono (items : List NewsItem) (acc r : ℚ)
    (h : newsAux items acc = .ok r) : acc ≤ r := by
  induction items generalizing acc with
  | nil =>
    unfold newsAux at h
    cases h
    exact le_rfl
  | cons it rest ih =>
    unfold newsAux at h
    simp only [except_bind_ok] at h
    obtain ⟨t, _, d, _, hrest⟩ := h
    exact le_trans (kwFoldNews_mono risk_keywords t d acc) (ih _ hrest)

theorem newsAux_ok_bounds (items : List NewsItem) (acc : ℚ)
    (hwf : ∀ n ∈ items, WFNewsItem n) (h0 : 0 ≤ acc) (h1 : acc ≤ 1) :
    ∃ r, newsAux items acc = .ok r ∧ 0 ≤ r ∧ r ≤ 1 := by
  induction items generalizing acc with
  | nil => exact ⟨acc, rfl, h0, h1⟩
  | cons it rest ih =>
    obtain ⟨⟨s, hs⟩, hd⟩ := hwf it (by simp)
    have hdesc : ∃ dl, descLower it.description = .ok dl := by
      rcases hdd : it.description with _ | ⟨_ | ds⟩
      · exact ⟨[], by simp [descLower, hdd]⟩
      · exact absurd hdd hd
      · exact ⟨strLower ds, by simp [descLower, hdd]⟩
    obtain ⟨dl, hdl⟩ := hdesc
    obtain ⟨hb0, hb1⟩ :=
      kwFoldNews_bounds risk_keywords risk_keywords_bounded (strLower s) dl
        acc h0 h1
    obtain ⟨r, hr, hr0, hr1⟩ :=
      ih _ (fun x hx => hwf x (by simp [hx])) hb0 hb1
    refine ⟨r, ?_, hr0, hr1⟩
    unfold newsAux
    simp only [except_bind_ok]
    exact ⟨strLower s, by simp [titleLower, hs], dl, hdl, hr⟩

theorem calculate_news_sentiment_risk_ok_bounds (news : List NewsItem)
    (hwf : ∀ n ∈ news, WFNewsItem n) :
    ∃ r, calculate_news_sentiment_risk news = .ok r ∧ 0 ≤ r ∧ r ≤ 1 := by
  unfold calculate_news_sentiment_risk
  by_cases he : news.isEmpty
  · exact ⟨0, by simp [he], le_rfl, by norm_num⟩
  · obtain ⟨r, hr, hr0, hr1⟩ := newsAux_ok_bounds (news.take 10) 0
      (fun n hn => hwf n (List.mem_of_mem_take hn)) le_rfl (by norm_num)
    exact ⟨r, by simp [he, hr], hr0, hr1⟩

theorem kwFoldPolitical_bounds (table : List (String × ℚ))
    (ht : TableBounded table) (t d : List Char) (acc : ℚ) (h0 : 0 ≤ acc)
    (h1 : acc ≤ 1) :
    0 ≤ kwFoldPolitical table t d acc ∧ kwFoldPolitical table t d acc ≤ 1 := by
  induction table generalizing acc with
  | nil => exact ⟨h0, h1⟩
  | cons p rest ih =>
    rcases p with ⟨k, w⟩
    have hp := ht (k, w) (by simp)
    have hrest : TableBounded rest := fun q hq => ht q (by simp [hq])
    refine ih hrest _ ?_ ?_
    · split
      · exact le_max_of_le_left h0
      · exact h0
    · split
      · exact max_le h1 hp.2
      · exact h1

theorem politicalAux_ok_bounds (items : List NewsItem) (acc : ℚ)
    (hwf : ∀ n ∈ items, WFNewsItem n) (h0 : 0 ≤ acc) (h1 : acc ≤ 1) :
    ∃ r, politicalAux items acc = .ok r ∧ 0 ≤ r ∧ r ≤ 1 := by
  induction items generalizing acc with
  | nil => exact ⟨acc, rfl, h0, h1⟩
  | cons it rest ih =>
    obtain ⟨⟨s, hs⟩, hd⟩ := hwf it (by simp)
    have hdesc : ∃ dl, descLower it.description = .ok dl := by
      rcases hdd : it.description with _ | ⟨_ | ds⟩
      · exact ⟨[], by simp [descLower, hdd]⟩
      · exact absurd hdd hd
      · exact ⟨strLower ds, by simp [descLower, hdd]⟩
    obtain ⟨dl, hdl⟩ := hdesc
    obtain ⟨hb0, hb1⟩ :=
      kwFoldPolitical_bounds political_keywords political_keywords_bounded
        (strLower s) dl acc h0 h1
    obtain ⟨r, hr, hr0, hr1⟩ :=
      ih _ (fun x hx => hwf x (by simp [hx])) hb0 hb1
    refine ⟨r, ?_, hr0, hr1⟩
    unfold politicalAux
    simp only [except_bind_ok]
    exact ⟨strLower s, by simp [titleLower, hs], dl, hdl, hr⟩

theorem calculate_political_risk_ok_bounds (news : List NewsItem)
    (trade : List (String × Option ℚ)) (hn : ∀ n ∈ news, WFNewsItem n)
    (htr : WFTradeDict trade) :
    ∃ r, calculate_political_risk news trade = .ok r ∧ 0 ≤ r ∧ r ≤ 1 := by
  obtain ⟨tv, htv, htv0, htv1⟩ := calculate_trade_risk_ok_bounds trade htr
  obtain ⟨nv, hnv, hnv0, hnv1⟩ :=
    politicalAux_ok_bounds news 0 hn le_rfl (by norm_num)
  refine ⟨max (tv * (1/2)) nv, ?_, le_max_of_le_right hnv0,
    max_le (by nlinarith) hnv1⟩
  unfold calculate_political_risk
  simp only [except_bind_ok]
  exact ⟨tv, htv, nv, hnv, rfl⟩

end RiskScorer

namespace RiskScorer

/-- Successful scoring decomposes into successful sub-calculations, and the
returned record is assembled from them exactly as the source does. -/
theorem overall_inversion (b : DataBundle) (now : ℤ) (s : RiskScores)
    (h : calculate_overall_risk b now = .ok s) :
    ∃ wv dv nv tv pv ev sv mv,
      calculate_weather_risk (b.weather.getD emptyWeatherData) = .ok wv ∧
      calculate_disaster_risk (b.disasters.getD []) now = .ok dv ∧
      calculate_news_sentiment_risk (b.news.getD []) = .ok nv ∧
      calculate_trade_risk (b.trade.getD []) = .ok tv ∧
      calculate_political_risk (b.news.getD []) (b.trade.getD []) = .ok pv ∧
      calculate_economic_risk (b.trade.getD []) = .ok ev ∧
      calculate_supply_risk (b.supply.getD []) = .ok sv ∧
      calculate_demand_risk (b.demand.getD []) = .ok mv ∧
      s = ⟨max wv dv, pv, ev, sv, mv, nv,
        min ((max wv dv * (2/10) + pv * (15/100) + ev * (25/100) +
          sv * (25/100) + mv * (15/100)) * (12/10)) 1⟩ := by
  unfold calculate_overall_risk at h
  simp only [except_bind_ok] at h
  obtain ⟨wv, hw, dv, hd, nv, hn, tv, ht, pv, hp, ev, he, sv, hs, mv, hm,
    hfin⟩ := h
  refine ⟨wv, dv, nv, tv, pv, ev, sv, mv, hw, hd, hn, ht, hp, he, hs, hm, ?_⟩
  simpa [eq_comm] using hfin

/-- Conversely, successful sub-calculations assemble into the successful
scoring result. -/
theorem overall_composition (b : DataBundle) (now : ℤ)
    (wv dv nv tv pv ev sv mv : ℚ)
    (hw : calculate_weather_risk (b.weather.getD emptyWeatherData) = .ok wv)
    (hd : calculate_disaster_risk (b.disasters.getD []) now = .ok dv)
    (hn : calculate_news_sentiment_risk (b.news.getD []) = .ok nv)
    (ht : calculate_trade_risk (b.trade.getD []) = .ok tv)
    (hp : calculate_political_risk (b.news.getD []) (b.trade.getD []) = .ok pv)
    (he : calculate_economic_risk (b.trade.getD []) = .ok ev)
    (hs : calculate_supply_risk (b.supply.getD []) = .ok sv)
    (hm : calculate_demand_risk (b.demand.getD []) = .ok mv) :
    calculate_overall_risk b now =
      .ok ⟨max wv dv, pv, ev, sv, mv, nv,
        min ((max wv dv * (2/10) + pv * (15/100) + ev * (25/100) +
          sv * (25/100) + mv * (15/100)) * (12/10)) 1⟩ := by
  unfold calculate_overall_risk
  simp only [except_bind_ok]
  exact ⟨wv, hw, dv, hd, nv, hn, tv, ht, pv, hp, ev, he, sv, hs, mv, hm, rfl⟩

end RiskScorer

namespace RiskScorer

/-- C1 (amended): on every bundle whose optional sub-fields are readable and
whose numeric inputs lie in their documented ranges, scoring succeeds and
every field of the returned score set — the six category scores and the
composite `overall` — lies in the closed interval [0,1].  (As stated over
arbitrary bundles the claim fails: an out-of-range trade indicator drives
`economic` below 0, see the counterexample theorem.) -/
theorem riskScoreSet_fields_unit_interval (b : DataBundle) (now : ℤ)
    (hwf : WFBundle b) :
    ∃ s, calculate_overall_risk b now = .ok s ∧
      (0 ≤ s.weather ∧ s.weather ≤ 1) ∧
      (0 ≤ s.political ∧ s.political ≤ 1) ∧
      (0 ≤ s.economic ∧ s.economic ≤ 1) ∧
      (0 ≤ s.supply ∧ s.supply ≤ 1) ∧
      (0 ≤ s.demand ∧ s.demand ≤ 1) ∧
      (0 ≤ s.news_sentiment ∧ s.news_sentiment ≤ 1) ∧
      (0 ≤ s.overall ∧ s.overall ≤ 1) := by
  obtain ⟨hW, hD, hN, hT, hS, hM⟩ := hwf
  obtain ⟨wv, hw, hw0, hw1⟩ :=
    calculate_weather_risk_ok_bounds (b.weather.getD emptyWeatherData) hW
  obtain ⟨dv, hd, hd0, hd1⟩ :=
    calculate_disaster_risk_ok_bounds (b.disasters.getD []) now hD
  obtain ⟨nv, hn, hn0, hn1⟩ :=
    calculate_news_sentiment_risk_ok_bounds (b.news.getD []) hN
  obtain ⟨tv, ht, ht0, ht1⟩ :=
    calculate_trade_risk_ok_bounds (b.trade.getD []) hT
  obtain ⟨pv, hp, hp0, hp1⟩ :=
    calculate_political_risk_ok_bounds (b.news.getD []) (b.trade.getD []) hN hT
  obtain ⟨sv, hs, hs0, hs1⟩ :=
    calculate_supply_risk_ok_bounds (b.supply.getD []) hS
  obtain ⟨mv, hm, hm0, hm1⟩ :=
    calculate_demand_risk_ok_bounds (b.demand.getD []) hM
  have he : calculate_economic_risk (b.trade.getD []) = .ok tv := by
    unfold calculate_economic_risk
    exact ht
  have henv0 : 0 ≤ max wv dv := le_max_of_le_left hw0
  have henv1 : max wv dv ≤ 1 := max_le hw1 hd1
  refine ⟨_, overall_composition b now wv dv nv tv pv tv sv mv hw hd hn ht hp
    he hs hm, ⟨henv0, henv1⟩, ⟨hp0, hp1⟩, ⟨ht0, ht1⟩, ⟨hs0, hs1⟩, ⟨hm0, hm1⟩,
    ⟨hn0, hn1⟩, ?_, ?_⟩
  · exact le_min (by nlinarith) (by norm_num)
  · exact min_le_right _ _

/-- Witness for C1 (amended): the empty bundle is well-formed and its score
set has every field in [0,1]. -/
theorem riskScoreSet_fields_unit_interval_witness :
    WFBundle emptyBundle ∧
      ∃ s, calculate_overall_risk emptyBundle 0 = .ok s ∧
        (0 ≤ s.weather ∧ s.weather ≤ 1) ∧
        (0 ≤ s.political ∧ s.political ≤ 1) ∧
        (0 ≤ s.economic ∧ s.economic ≤ 1) ∧
        (0 ≤ s.supply ∧ s.supply ≤ 1) ∧
        (0 ≤ s.demand ∧ s.demand ≤ 1) ∧
        (0 ≤ s.news_sentiment ∧ s.news_sentiment ≤ 1) ∧
        (0 ≤ s.overall ∧ s.overall ≤ 1) :=
  have hwf : WFBundle emptyBundle := by
    refine ⟨?_, ?_, ?_,
      ⟨⟨50, rfl, by norm_num⟩, ⟨50, rfl, by norm_num⟩,
        ⟨5/2, rfl, by norm_num⟩⟩,
      ⟨⟨50, rfl, by norm_num⟩, ⟨30, rfl, by norm_num⟩,
        ⟨1/2, rfl, by norm_num⟩⟩,
      ⟨⟨7/10, rfl, by norm_num⟩, ⟨3/10, rfl, by norm_num⟩⟩⟩
    · intro day hday
      simp [emptyBundle, emptyWeatherData] at hday
    · intro d hd
      simp [emptyBundle] at hd
    · intro n hn
      simp [emptyBundle] at hn
  ⟨hwf, riskScoreSet_fields_unit_interval emptyBundle 0 hwf⟩

/-- C1 counterexample: a bundle whose trade-percentage indicator is 400
(trade-to-GDP percentages above 100 are real) is scored with
`economic = -11/20 < 0`: the score set's fields do NOT all lie in [0,1]. -/
theorem riskScoreSet_field_escapes_counterexample :
    calculate_overall_risk ⟨none, none, none, some [("trade", some 400)],
        none, none⟩ 0 =
      .ok ⟨1/10, 0, -(11/20), 1/2, 3/10, 0, 63/1000⟩ ∧
      ¬ (0 ≤ (-(11/20) : ℚ)) := by
  constructor
  · simp [calculate_overall_risk, calculate_weather_risk, forecast_risk,
      forecastAux, base_risk, condition_risk, risk_factors,
      calculate_disaster_risk, calculate_news_sentiment_risk,
      calculate_trade_risk, calculate_political_risk, politicalAux,
      calculate_economic_risk, calculate_supply_risk, calculate_demand_risk,
      dictGetNum, emptyWeatherData, Bind.bind, Except.bind,
      List.lookup, min_def, max_def]
    norm_num
  · norm_num

end RiskScorer

namespace RiskScorer

/-- C2 (amended): scoring is a deterministic pure function of the bundle
together with the ambient clock instant `now` consulted by the disaster
recency filter; in particular, for a bundle with no disaster events the
output is independent of the clock. -/
theorem score_clock_independent_without_disasters (b : DataBundle)
    (t1 t2 : ℤ) (h : b.disasters = none ∨ b.disasters = some []) :
    calculate_overall_risk b t1 = calculate_overall_risk b t2 := by
  have hd : b.disasters.getD [] = [] := by
    rcases h with h | h <;> simp [h]
  have hz : ∀ t : ℤ, calculate_disaster_risk (b.disasters.getD []) t =
      .ok 0 := by
    intro t
    simp [calculate_disaster_risk, hd]
  unfold calculate_overall_risk
  rw [hz t1, hz t2]

/-- Witness for C2 (amended) at the empty bundle and two distinct clock
instants. -/
theorem score_clock_independent_without_disasters_witness :
    (emptyBundle.disasters = none ∨ emptyBundle.disasters = some []) ∧
      calculate_overall_risk emptyBundle 0 =
        calculate_overall_risk emptyBundle 2592000 :=
  ⟨Or.inl rfl,
    score_clock_independent_without_disasters emptyBundle 0 2592000
      (Or.inl rfl)⟩

/-- C2 counterexample: the scoring entry point reads `datetime.now()`
through the 7-day disaster recency window, so two invocations on the
identical bundle — one while an earthquake event is 0 days old, one 20 days
later — return different score sets.  The output is not a function of the
bundle alone. -/
theorem score_depends_on_clock_counterexample :
    calculate_overall_risk
        ⟨none, some [⟨some (some "Earthquake near plant"),
          some ⟨true, false, 0⟩⟩], none, none, none, none⟩ 0 ≠
      calculate_overall_risk
        ⟨none, some [⟨some (some "Earthquake near plant"),
          some ⟨true, false, 0⟩⟩], none, none, none, none⟩ 1728000 := by
  have hocc : subOccurs "earthquake" (strLower "Earthquake near plant") =
      true := by decide
  have h1 : calculate_overall_risk
      ⟨none, some [⟨some (some "Earthquake near plant"),
        some ⟨true, false, 0⟩⟩], none, none, none, none⟩ 0 =
      .ok ⟨1, 1/4, 1/2, 1/2, 3/10, 0, 639/1000⟩ := by
    simp [calculate_overall_risk, calculate_weather_risk, forecast_risk,
      forecastAux, base_risk, condition_risk, risk_factors,
      calculate_disaster_risk, recentDisasters, disasterDate, fromisoformat,
      timedeltaDays, disasterAux, titleLower, firstSeverityMatch,
      disaster_severity_weights, hocc, calculate_news_sentiment_risk,
      calculate_trade_risk, calculate_political_risk, politicalAux,
      calculate_economic_risk, calculate_supply_risk, calculate_demand_risk,
      dictGetNum, emptyWeatherData, Bind.bind, Except.bind, List.lookup,
      min_def, max_def]
    norm_num
  have h2 : calculate_overall_risk
      ⟨none, some [⟨some (some "Earthquake near plant"),
        some ⟨true, false, 0⟩⟩], none, none, none, none⟩ 1728000 =
      .ok ⟨1/10, 1/4, 1/2, 1/2, 3/10, 0, 423/1000⟩ := by
    simp [calculate_overall_risk, calculate_weather_risk, forecast_risk,
      forecastAux, base_risk, condition_risk, risk_factors,
      calculate_disaster_risk, recentDisasters, disasterDate, fromisoformat,
      timedeltaDays, disasterAux, titleLower, firstSeverityMatch,
      disaster_severity_weights, hocc, calculate_news_sentiment_risk,
      calculate_trade_risk, calculate_political_risk, politicalAux,
      calculate_economic_risk, calculate_supply_risk, calculate_demand_risk,
      dictGetNum, emptyWeatherData, Bind.bind, Except.bind, List.lookup,
      min_def, max_def]
    norm_num
  rw [h1, h2]
  simp only [ne_eq, Except.ok.injEq, RiskScores.mk.injEq]
  norm_num

end RiskScorer

namespace RiskScorer

/-- C3: the sub-calculations are NOT total on the very inputs the claim
names.  A disaster event with a 'Z'-suffixed (hence offset-aware) ISO-8601
date makes the recency filter subtract an aware datetime from the naive
`datetime.now()`, raising `TypeError`; a news item without a `title` key
raises `KeyError`; a trade indicator present with a `null` value raises
`TypeError` — in each case no `RiskScoreSet` is returned. -/
theorem sub_calculations_raise_on_claimed_inputs :
    calculate_overall_risk
        ⟨none, some [⟨some (some "Major earthquake"), some ⟨true, true, 0⟩⟩],
          none, none, none, none⟩ 0 = .error .typeError ∧
      calculate_overall_risk
        ⟨none, none, some [⟨none, none⟩], none, none, none⟩ 0 =
          .error .keyError ∧
      calculate_overall_risk
        ⟨none, none, none, some [("trade", none)], none, none⟩ 0 =
          .error .typeError := by
  refine ⟨?_, ?_, ?_⟩ <;>
    simp [calculate_overall_risk, calculate_weather_risk, forecast_risk,
      forecastAux, base_risk, condition_risk, risk_factors,
      calculate_disaster_risk, recentDisasters, disasterDate, fromisoformat,
      timedeltaDays, disasterAux, titleLower, calculate_news_sentiment_risk,
      newsAux, calculate_trade_risk, calculate_political_risk, politicalAux,
      calculate_economic_risk, calculate_supply_risk, calculate_demand_risk,
      dictGetNum, emptyWeatherData, Bind.bind, Except.bind, List.lookup,
      min_def, max_def]

end RiskScorer

namespace RiskScorer

/-- C4 (amended): whenever scoring succeeds, the composite equals the
weighted sum of the reported category scores with weights weather 0.2,
political 0.15, economic 0.25, supply 0.25, demand 0.15, multiplied by 1.2
and capped above at 1.0 — there is no lower clamp, and `news_sentiment`
does not occur in the formula. -/
theorem overall_weighted_sum_formula (b : DataBundle) (now : ℤ)
    (s : RiskScores) (h : calculate_overall_risk b now = .ok s) :
    s.overall = min ((s.weather * (2/10) + s.political * (15/100) +
      s.economic * (25/100) + s.supply * (25/100) +
      s.demand * (15/100)) * (12/10)) 1 := by
  obtain ⟨wv, dv, nv, tv, pv, ev, sv, mv, _, _, _, _, _, _, _, _, hs⟩ :=
    overall_inversion b now s h
  subst hs
  rfl

/-- Witness for C4 (amended) at the empty bundle. -/
theorem overall_weighted_sum_formula_witness :
    calculate_overall_risk emptyBundle 0 =
      .ok ⟨1/10, 1/4, 1/2, 1/2, 3/10, 0, 423/1000⟩ ∧
    ((423:ℚ)/1000) = min (((1/10) * (2/10) + (1/4) * (15/100) +
      (1/2) * (25/100) + (1/2) * (25/100) + (3/10) * (15/100)) * (12/10)) 1 := by
  have h : calculate_overall_risk emptyBundle 0 =
      .ok ⟨1/10, 1/4, 1/2, 1/2, 3/10, 0, 423/1000⟩ := by
    simp [calculate_overall_risk, calculate_weather_risk, forecast_risk,
      forecastAux, base_risk, condition_risk, risk_factors,
      calculate_disaster_risk, calculate_news_sentiment_risk,
      calculate_trade_risk, calculate_political_risk, politicalAux,
      calculate_economic_risk, calculate_supply_risk, calculate_demand_risk,
      dictGetNum, emptyBundle, emptyWeatherData, Bind.bind, Except.bind,
      List.lookup, min_def, max_def]
    norm_num
  exact ⟨h, overall_weighted_sum_formula emptyBundle 0 _ h⟩

/-- C4 counterexample: with the (real-world) trade-to-GDP value 1000 the
weighted sum is negative and the code's `min(x * 1.2, 1.0)` keeps the
negative value: the composite is NOT clamped to [0,1]. -/
theorem overall_not_clamped_below_counterexample :
    calculate_overall_risk ⟨none, none, none, some [("trade", some 1000)],
        none, none⟩ 0 =
      .ok ⟨1/10, 0, -(47/20), 1/2, 3/10, 0, -(477/1000)⟩ ∧
      ¬ (0 ≤ (-(477/1000) : ℚ)) := by
  constructor
  · simp [calculate_overall_risk, calculate_weather_risk, forecast_risk,
      forecastAux, base_risk, condition_risk, risk_factors,
      calculate_disaster_risk, calculate_news_sentiment_risk,
      calculate_trade_risk, calculate_political_risk, politicalAux,
      calculate_economic_risk, calculate_supply_risk, calculate_demand_risk,
      dictGetNum, emptyWeatherData, Bind.bind, Except.bind, List.lookup,
      min_def, max_def]
    norm_num
  · norm_num

/-- C5: the empty bundle is scored with the documented defaults — weather
0.1, political 0.25, economic 0.5, supply 0.5, demand 0.3 — and the
composite 0.423 is categorized "Medium" (0.3 ≤ overall < 0.6), at every
clock instant. -/
theorem empty_bundle_scores_medium (now : ℤ) :
    calculate_overall_risk emptyBundle now =
      .ok ⟨1/10, 1/4, 1/2, 1/2, 3/10, 0, 423/1000⟩ ∧
    get_risk_category (423/1000) = "Medium" ∧
    (3/10 : ℚ) ≤ 423/1000 ∧ (423/1000 : ℚ) < 6/10 := by
  refine ⟨?_, ?_, by norm_num, by norm_num⟩
  · simp [calculate_overall_risk, calculate_weather_risk, forecast_risk,
      forecastAux, base_risk, condition_risk, risk_factors,
      calculate_disaster_risk, calculate_news_sentiment_risk,
      calculate_trade_risk, calculate_political_risk, politicalAux,
      calculate_economic_risk, calculate_supply_risk, calculate_demand_risk,
      dictGetNum, emptyBundle, emptyWeatherData, Bind.bind, Except.bind,
      List.lookup, min_def, max_def]
    norm_num
  · simp [get_risk_category]
    norm_num

end RiskScorer

namespace RiskScorer

/-- C6: the reported weather/environmental score is the maximum of the four
paths — (a) the alert base floor, (b) the condition lookup, (c) the maximum
forecast-day risk, (d) the disaster-derived risk over the 7-day window —
and an event dated exactly 10 days before `now` contributes zero disaster
risk whatever its title. -/
theorem weather_score_is_max_of_four_paths :
    (∀ (b : DataBundle) (now : ℤ) (s : RiskScores) (fr dr : ℚ),
      calculate_overall_risk b now = .ok s →
      forecast_risk (b.weather.getD emptyWeatherData) = .ok fr →
      calculate_disaster_risk (b.disasters.getD []) now = .ok dr →
      s.weather =
        max (max (max (base_risk (b.weather.getD emptyWeatherData))
          (condition_risk (b.weather.getD emptyWeatherData))) fr) dr) ∧
    (∀ (now : ℤ) (title : String),
      calculate_disaster_risk
        [⟨some (some title), some ⟨true, false, now - 864000⟩⟩] now =
          .ok 0) := by
  constructor
  · intro b now s fr dr h hf hd
    obtain ⟨wv, dv, nv, tv, pv, ev, sv, mv, hw, hd', _, _, _, _, _, _, hs⟩ :=
      overall_inversion b now s h
    subst hs
    unfold calculate_weather_risk at hw
    simp only [except_bind_ok] at hw
    obtain ⟨f', hf', heq⟩ := hw
    rw [hf] at hf'
    cases hf'
    rw [hd] at hd'
    cases hd'
    cases heq
    rfl
  · intro now title
    have hdays : ¬ ((864000 : ℤ).fdiv 86400 ≤ 7) := by decide
    have harith : now - (now - 864000) = 864000 := by ring
    simp [calculate_disaster_risk, recentDisasters, disasterDate,
      fromisoformat, timedeltaDays, harith, hdays, disasterAux, Bind.bind,
      Except.bind]

/-- Witness for C6: at the empty bundle the weather score 0.1 is the
4-path maximum, and a concrete 10-day-old earthquake event scores zero. -/
theorem weather_score_is_max_of_four_paths_witness :
    ((1/10 : ℚ) =
      max (max (max (base_risk emptyWeatherData)
        (condition_risk emptyWeatherData)) 0) 0) ∧
    calculate_disaster_risk
      [⟨some (some "earthquake"), some ⟨true, false, 0 - 864000⟩⟩] 0 =
        .ok 0 := by
  have h : calculate_overall_risk emptyBundle 0 =
      .ok ⟨1/10, 1/4, 1/2, 1/2, 3/10, 0, 423/1000⟩ := by
    simp [calculate_overall_risk, calculate_weather_risk, forecast_risk,
      forecastAux, base_risk, condition_risk, risk_factors,
      calculate_disaster_risk, calculate_news_sentiment_risk,
      calculate_trade_risk, calculate_political_risk, politicalAux,
      calculate_economic_risk, calculate_supply_risk, calculate_demand_risk,
      dictGetNum, emptyBundle, emptyWeatherData, Bind.bind, Except.bind,
      List.lookup, min_def, max_def]
    norm_num
  have hf : forecast_risk (emptyBundle.weather.getD emptyWeatherData) =
      .ok 0 := by
    simp [forecast_risk, forecastAux, emptyBundle, emptyWeatherData]
  have hd : calculate_disaster_risk (emptyBundle.disasters.getD []) 0 =
      .ok 0 := by
    simp [calculate_disaster_risk, emptyBundle]
  exact ⟨weather_score_is_max_of_four_paths.1 emptyBundle 0 _ 0 0 h hf hd,
    weather_score_is_max_of_four_paths.2 0 "earthquake"⟩

end RiskScorer

namespace RiskScorer

theorem kwFoldNews_no_match (table : List (String × ℚ)) (t d : List Char)
    (acc : ℚ) (h : ∀ p ∈ table, subOccurs p.1 t = false ∧
      subOccurs p.1 d = false) : kwFoldNews table t d acc = acc := by
  induction table with
  | nil => rfl
  | cons p rest ih =>
    have hp := h p (by simp)
    unfold kwFoldNews
    rw [if_neg (by simp [hp.1]), if_neg (by simp [hp.2])]
    exact ih (fun q hq => h q (by simp [hq]))

theorem kwFoldPolitical_no_match (table : List (String × ℚ))
    (t d : List Char) (acc : ℚ) (h : ∀ p ∈ table, subOccurs p.1 t = false ∧
      subOccurs p.1 d = false) : kwFoldPolitical table t d acc = acc := by
  induction table with
  | nil => rfl
  | cons p rest ih =>
    have hp := h p (by simp)
    unfold kwFoldPolitical
    rw [if_neg (by simp [hp.1, hp.2])]
    exact ih (fun q hq => h q (by simp [hq]))

theorem newsAux_ok_ge_of_kw (items : List NewsItem) (acc r : ℚ)
    (h : newsAux items acc = .ok r) (it : NewsItem) (hmem : it ∈ items)
    (ti : String) (hti : it.title = some (some ti)) (k : String) (w : ℚ)
    (hk : (k, w) ∈ risk_keywords)
    (hocc : subOccurs k (strLower ti) = true) : w ≤ r := by
  induction items generalizing acc with
  | nil => simp at hmem
  | cons a rest ih =>
    unfold newsAux at h
    simp only [except_bind_ok] at h
    obtain ⟨t, hta, d, hda, hrest⟩ := h
    rcases List.mem_cons.mp hmem with hcase | hcase
    · subst hcase
      rw [hti] at hta
      simp [titleLower] at hta
      subst hta
      exact le_trans (kwFoldNews_ge_of_title risk_keywords _ d acc k w hk hocc)
        (newsAux_ok_mono rest _ r hrest)
    · exact ih _ hrest hcase

/-- C7 (amended): whenever the news-sentiment calculation succeeds and some
item AMONG THE FIRST 10 (the slice `news_data[:10]` the code scans) has
"bankruptcy" in its lowered title, the news-sentiment score is at least
0.9.  (As stated over all items of the bundle the claim fails: an eleventh
item is never scanned — see the counterexample.) -/
theorem bankruptcy_in_first_ten_scores_high (news : List NewsItem) (r : ℚ)
    (h : calculate_news_sentiment_risk news = .ok r) (it : NewsItem)
    (hmem : it ∈ news.take 10) (ti : String)
    (hti : it.title = some (some ti))
    (hocc : subOccurs "bankruptcy" (strLower ti) = true) : 9/10 ≤ r := by
  unfold calculate_news_sentiment_risk at h
  by_cases he : news.isEmpty
  · rw [List.isEmpty_iff] at he
    subst he
    simp at hmem
  · rw [if_neg he] at h
    exact newsAux_ok_ge_of_kw (news.take 10) 0 r h it hmem ti hti
      "bankruptcy" (9/10) (by simp [risk_keywords]) hocc

/-- Witness for C7 (amended): a single bankruptcy-titled item yields a
news-sentiment score of at least 0.9. -/
theorem bankruptcy_in_first_ten_scores_high_witness :
    ∃ r, calculate_news_sentiment_risk
        [⟨some (some "Supplier bankruptcy filing"), none⟩] = .ok r ∧
      9/10 ≤ r := by
  obtain ⟨r, hr, _, _⟩ := calculate_news_sentiment_risk_ok_bounds
    [⟨some (some "Supplier bankruptcy filing"), none⟩]
    (by intro n hn; simp at hn; subst hn
        exact ⟨⟨"Supplier bankruptcy filing", rfl⟩, by simp⟩)
  exact ⟨r, hr, bankruptcy_in_first_ten_scores_high _ r hr
    ⟨some (some "Supplier bankruptcy filing"), none⟩ (by simp)
    "Supplier bankruptcy filing" rfl (by decide)⟩

/-- C7 counterexample: a bundle whose news list holds ten keyword-free items
followed by a bankruptcy-titled eleventh is scored with news-sentiment 0:
the eleventh item lies outside the `news_data[:10]` slice, so the claimed
bound 0.9 fails even though the bundle contains a bankruptcy title. -/
theorem bankruptcy_item_ignored_counterexample :
    calculate_overall_risk
        ⟨none, none, some [⟨some (some "aaaa"), none⟩,
          ⟨some (some "aaaa"), none⟩, ⟨some (some "aaaa"), none⟩,
          ⟨some (some "aaaa"), none⟩, ⟨some (some "aaaa"), none⟩,
          ⟨some (some "aaaa"), none⟩, ⟨some (some "aaaa"), none⟩,
          ⟨some (some "aaaa"), none⟩, ⟨some (some "aaaa"), none⟩,
          ⟨some (some "aaaa"), none⟩,
          ⟨some (some "Supplier bankruptcy filing"), none⟩],
          none, none, none⟩ 0 =
      .ok ⟨1/10, 1/4, 1/2, 1/2, 3/10, 0, 423/1000⟩ ∧
    subOccurs "bankruptcy" (strLower "Supplier bankruptcy filing") = true ∧
    ¬ ((9:ℚ)/10 ≤ 0) := by
  have hn1 : ∀ p ∈ risk_keywords, subOccurs p.1 (strLower "aaaa") = false ∧
      subOccurs p.1 ([] : List Char) = false := by decide
  have hp1 : ∀ p ∈ political_keywords,
      subOccurs p.1 (strLower "aaaa") = false ∧
      subOccurs p.1 ([] : List Char) = false := by decide
  have hp2 : ∀ p ∈ political_keywords,
      subOccurs p.1 (strLower "Supplier bankruptcy filing") = false ∧
      subOccurs p.1 ([] : List Char) = false := by decide
  have hkn : ∀ acc : ℚ,
      kwFoldNews risk_keywords (strLower "aaaa") [] acc = acc :=
    fun acc => kwFoldNews_no_match _ _ _ acc hn1
  have hkp1 : ∀ acc : ℚ,
      kwFoldPolitical political_keywords (strLower "aaaa") [] acc = acc :=
    fun acc => kwFoldPolitical_no_match _ _ _ acc hp1
  have hkp2 : ∀ acc : ℚ, kwFoldPolitical political_keywords
      (strLower "Supplier bankruptcy filing") [] acc = acc :=
    fun acc => kwFoldPolitical_no_match _ _ _ acc hp2
  refine ⟨?_, by decide, by norm_num⟩
  simp [calculate_overall_risk, calculate_weather_risk, forecast_risk,
    forecastAux, base_risk, condition_risk, risk_factors,
    calculate_disaster_risk, calculate_news_sentiment_risk, newsAux,
    titleLower, descLower, hkn, hkp1, hkp2, calculate_trade_risk,
    calculate_political_risk, politicalAux, calculate_economic_risk,
    calculate_supply_risk, calculate_demand_risk, dictGetNum,
    emptyWeatherData, Bind.bind, Except.bind, List.lookup, min_def, max_def]
  norm_num

end RiskScorer

namespace RiskScorer

/-- C8 (amended): the recommendation list is the concatenation of per-category
blocks in the fixed order weather, political, economic, supply, demand,
news-sentiment, each triggered by its own threshold — but the economic block
holds TWO advisories when the bundle's logistics indicator (defaulting to 0)
is below 2.5, and the weather block's single string varies with alert
presence. -/
theorem recommendations_block_structure (s : RiskScores) (b : DataBundle)
    (L : List String) (lv : ℚ)
    (hlv : dictGetNum (b.trade.getD []) "logistics" 0 = .ok lv)
    (h : get_risk_recommendations s b = .ok L) :
    L = (if s.weather > 7/10 then
           [if weatherAlertsTruthy b then strWeatherUrgent
            else strWeatherAdverse] else []) ++
        (if s.political > 6/10 then [strPolitical] else []) ++
        (if s.economic > 6/10 then
           (if lv < 5/2 then [strLogistics] else []) ++ [strEconomic]
         else []) ++
        (if s.supply > 1/2 then [strSupply] else []) ++
        (if s.demand > 1/2 then [strDemand] else []) ++
        (if s.news_sentiment > 7/10 then [strNews] else []) := by
  unfold get_risk_recommendations at h
  rw [hlv] at h
  by_cases h3 : s.economic > 6/10
  · rw [if_pos h3] at h
    simp only [Bind.bind, Except.bind, Pure.pure, Except.pure,
      Except.ok.injEq] at h
    subst h
    rw [if_pos h3]
    split_ifs <;> simp
  · rw [if_neg h3] at h
    simp only [Bind.bind, Except.bind, Pure.pure, Except.pure,
      Except.ok.injEq] at h
    subst h
    rw [if_neg h3]
    split_ifs <;> simp

/-- Witness for C8 (amended): a score set triggering only the weather
category on the empty bundle yields exactly the single adverse-weather
advisory block. -/
theorem recommendations_block_structure_witness :
    ([strWeatherAdverse] : List String) =
      (if (1:ℚ) > 7/10 then
         [if weatherAlertsTruthy emptyBundle then strWeatherUrgent
          else strWeatherAdverse] else []) ++
      (if (0:ℚ) > 6/10 then [strPolitical] else []) ++
      (if (0:ℚ) > 6/10 then
         (if (0:ℚ) < 5/2 then [strLogistics] else []) ++ [strEconomic]
       else []) ++
      (if (0:ℚ) > 1/2 then [strSupply] else []) ++
      (if (0:ℚ) > 1/2 then [strDemand] else []) ++
      (if (0:ℚ) > 7/10 then [strNews] else []) := by
  have hlv : dictGetNum (emptyBundle.trade.getD []) "logistics" 0 =
      .ok 0 := by simp [emptyBundle, dictGetNum]
  have h : get_risk_recommendations ⟨1, 0, 0, 0, 0, 0, 0⟩ emptyBundle =
      .ok [strWeatherAdverse] := by
    simp [get_risk_recommendations, weatherAlertsTruthy, emptyBundle,
      Bind.bind, Except.bind, pure, Except.pure]
    norm_num
  exact recommendations_block_structure ⟨1, 0, 0, 0, 0, 0, 0⟩ emptyBundle
    [strWeatherAdverse] 0 hlv h

/-- C8 counterexample: with only the economic category above threshold and
no logistics indicator in the bundle (so the 0 default is below 2.5), the
code appends TWO advisory strings for the single triggered category — the
list is not one fixed string per triggered category. -/
theorem economic_block_two_strings_counterexample :
    get_risk_recommendations ⟨0, 0, 7/10, 0, 0, 0, 0⟩ emptyBundle =
      .ok [strLogistics, strEconomic] ∧ strLogistics ≠ strEconomic := by
  constructor
  · simp [get_risk_recommendations, weatherAlertsTruthy, emptyBundle,
      dictGetNum, Bind.bind, Except.bind, pure, Except.pure]
    norm_num
  · decide

end RiskScorer

/-- C9 (amended): each collector is total — the `except` boundary converts
every internal failure into a returned payload, never a raised exception —
and on failure the weather collector returns the full documented default
`{'condition': 'normal'}` (also on a non-success status); the news and
trade collectors return exactly the items accumulated before the failure
point, which is the empty list/map when the failure precedes the first
collected item. -/
theorem collectors_default_on_failure :
    (∀ (env : WeatherCollector.WeatherEnv) (e : PyErr),
      WeatherCollector.get_weather_data_checked env = .error e →
      WeatherCollector.get_weather_data env =
        WeatherCollector.defaultWeatherPayload) ∧
    (∀ (env : WeatherCollector.WeatherEnv) (st : ℕ)
        (body : Except Unit WeatherCollector.OneCallJson),
      env.onecall = .ok (st, body) → st ≠ 200 →
      WeatherCollector.get_weather_data env =
        WeatherCollector.defaultWeatherPayload) ∧
    (∀ (loc : String) (env : NewsCollector.NewsEnv),
      env.newsapi = .error () →
      NewsCollector.get_supply_chain_news loc env = []) ∧
    (∀ env : TradeDataCollector.TradeEnv, env.trade = .error () →
      TradeDataCollector.get_trade_data env = []) := by
  refine ⟨?_, ?_, ?_, ?_⟩
  · intro env e h
    unfold WeatherCollector.get_weather_data
    rw [h]
  · intro env st body henv hst
    unfold WeatherCollector.get_weather_data
      WeatherCollector.get_weather_data_checked
    rw [henv]
    simp [hst]
  · intro loc env h
    unfold NewsCollector.get_supply_chain_news
    rw [h]
  · intro env h
    unfold TradeDataCollector.get_trade_data
    rw [h]
    simp [TradeDataCollector.tradeStep]

/-- Witness for C9 (amended): concrete failing environments for each
collector — a raising weather request, a non-success weather status, a
raising NewsAPI call, a raising World Bank request. -/
theorem collectors_default_on_failure_witness :
    WeatherCollector.get_weather_data ⟨.error ()⟩ =
      WeatherCollector.defaultWeatherPayload ∧
    WeatherCollector.get_weather_data ⟨.ok (503, .error ())⟩ =
      WeatherCollector.defaultWeatherPayload ∧
    NewsCollector.get_supply_chain_news "berlin" ⟨.error (), .error ()⟩ =
      [] ∧
    TradeDataCollector.get_trade_data ⟨.error (), .error (), .error ()⟩ =
      [] :=
  ⟨collectors_default_on_failure.1 ⟨.error ()⟩ .netError rfl,
   collectors_default_on_failure.2.1 ⟨.ok (503, .error ())⟩ 503 (.error ())
     rfl (by norm_num),
   collectors_default_on_failure.2.2.1 "berlin" ⟨.error (), .error ()⟩ rfl,
   collectors_default_on_failure.2.2.2 ⟨.error (), .error (), .error ()⟩ rfl⟩

/-- C9 counterexample: a failure does NOT always yield the documented empty
payload.  With one NewsAPI article already collected, a non-success GTA
status returns that one-element list (not `[]`); with the trade indicator
already collected, raising manufacturing/logistics requests return the
one-entry map (not `{}`). -/
theorem collectors_partial_payload_counterexample :
    NewsCollector.get_supply_chain_news "berlin"
        ⟨.ok [⟨some (some "Chip shortage"), some (some "desc"),
          some (some "http u"), some (some "2024-01-01"),
          some (some "Reuters")⟩], .ok (500, .error ())⟩ =
      [⟨"NewsAPI", some "Chip shortage", some "desc", some "http u",
        some "2024-01-01", some "Reuters"⟩] ∧
    ([⟨"NewsAPI", some "Chip shortage", some "desc", some "http u",
        some "2024-01-01", some "Reuters"⟩] :
      List NewsCollector.NewsRecord) ≠ [] ∧
    TradeDataCollector.get_trade_data
        ⟨.ok (200, .ok ⟨some [⟨some (some 42)⟩]⟩), .error (), .error ()⟩ =
      [("trade", some 42)] ∧
    ([("trade", (some 42 : Option ℚ))] : List (String × Option ℚ)) ≠ [] := by
  refine ⟨?_, by simp, ?_, by simp⟩
  · simp [NewsCollector.get_supply_chain_news, NewsCollector.newsapiFold,
      NewsCollector.buildRecord]
  · simp [TradeDataCollector.get_trade_data, TradeDataCollector.tradeStep]

namespace RiskScorer

/-- C10: with a non-empty indicator map, each missing indicator falls back
to its own default (trade 50, manufacturing 50, logistics 2.5 — a 0.5
sub-score each); the global 0.5 no-data result applies exactly to the empty
map, and differs from the per-indicator path (e.g. trade=100 alone scores
0.35, not 0.5). -/
theorem trade_risk_per_indicator_defaults :
    (calculate_trade_risk [] = .ok (1/2)) ∧
    (∀ v : ℚ, calculate_trade_risk [("trade", some v)] =
      .ok (min ((1 - v/100) * (3/10) + (1/2) * (3/10) + (1/2) * (4/10)) 1)) ∧
    (∀ v : ℚ, calculate_trade_risk [("logistics", some v)] =
      .ok (min ((1/2) * (3/10) + (1/2) * (3/10) + (1 - v/5) * (4/10)) 1)) ∧
    (calculate_trade_risk [("trade", some 100)] = .ok (7/20) ∧
      ((7:ℚ)/20) ≠ 1/2) := by
  refine ⟨rfl, ?_, ?_, ?_, by norm_num⟩
  · intro v
    simp [calculate_trade_risk, dictGetNum, List.lookup, Bind.bind,
      Except.bind]
    norm_num
  · intro v
    simp [calculate_trade_risk, dictGetNum, List.lookup, Bind.bind,
      Except.bind]
    norm_num
  · simp [calculate_trade_risk, dictGetNum, List.lookup, Bind.bind,
      Except.bind, min_def]
    norm_num

end RiskScorer
